import Mathlib

/-!
Verification of the free-list allocator in `mem.c` (Custom_Malloc_and_Free).

Shallow embedding notes.

* The program is compiled for a 32-bit layout: `sizeof(block_header) = 8`,
  with the `next` pointer at byte offset 0 and the `int size_status` at byte
  offset 4 (the source comment "Return the allocated block + 1 (really + 8
  since block header)" fixes `sizeof(block_header) = 8`).
* Memory is modelled word-addressed: `Memory := Int → Int` maps a byte
  address (always a multiple of 4 in every execution considered here) to the
  32-bit word stored there.  Pointers and `int`s share this space, `NULL`
  is the address `0`.  `mmap` of `/dev/zero` yields zero-filled memory, so
  the initial memory is the constant-0 function; reads the C program makes
  outside the mapped region would be undefined behaviour, and no theorem
  below depends on such a read.
* All integer values arising in the runs below are far from 2^31, so C
  `int` arithmetic never overflows and is modelled by unbounded `Int`.
  The C `%` operator on two `int`s truncates toward zero and is modelled
  by `Int.tmod`; in `size % sizeof(block_header)` the `int` operand is
  converted to the unsigned `size_t`, which for a 32-bit `int` is the
  nonnegative `Int.emod _ 8` (2^32 is a multiple of 8), so negative sizes
  wrap there — see `Mem_Alloc`.
* The only bit operations the source performs touch the low-order bit of
  `size_status`; on two's-complement integers `x & 0x1 = x.emod 2`,
  `x |= 0x1` maps an even `x` to `x + 1` and fixes odd `x`, and
  `x &= ~0x1` subtracts `x.emod 2`.  These are the definitions `lsb`,
  `setLsb`, `clearLsb` below.
* `getpagesize()` is 4096.  A dereference of a NULL pointer is made
  explicit as the result `CResult.nullDeref`; the unbounded `while` loops
  of `Mem_Alloc` and `Mem_Free` receive a fuel parameter, exhaustion being
  `CResult.noFuel` (the loops can genuinely diverge on the cyclic lists the
  program builds, so fuel is not a modelling shortcut).
-/

namespace MemC

/-- Word-addressed memory: byte address to stored 32-bit value. -/
abbrev Memory := Int → Int

/-- Write value `v` at address `a`. -/
def store (m : Memory) (a v : Int) : Memory := fun x => if x = a then v else m x

/-- `sizeof(block_header)`: 4-byte `next` pointer plus 4-byte `size_status`. -/
def hdr : Int := 8

/-- `getpagesize()`. -/
def pagesize : Int := 4096

/-- `x & 0x1` on a two's-complement int. -/
def lsb (x : Int) : Int := x % 2

/-- `x |= 0x1` on a two's-complement int. -/
def setLsb (x : Int) : Int := if x % 2 = 0 then x + 1 else x

/-- `x &= ~(0x1)` on a two's-complement int. -/
def clearLsb (x : Int) : Int := x - x % 2

/-- Allocator state: the `allocated_once` static of `Mem_Init`, the global
`list_head` (0 = NULL), the memory, plus two ghost fields recording where
`mmap` placed the region and how large it is (the C code does not store
them; they only let invariants about "the Region" be stated). -/
structure AState where
  allocated_once : Bool
  list_head : Int
  mem : Memory
  base : Int
  regionSize : Int

/-- Process state before `Mem_Init` ever ran. -/
def stZero : AState :=
  { allocated_once := false, list_head := 0, mem := fun _ => 0
    base := 0, regionSize := 0 }

/-- Outcome of running a C function: a value, a NULL-pointer dereference
(the process crashes), or fuel exhaustion (the loop had not terminated
within the given budget). -/
inductive CResult (α : Type) where
  | ok : α → CResult α
  | nullDeref : CResult α
  | noFuel : CResult α

/-- `Mem_Init(sizeOfRegion)`, lines 39-92 of mem.c.  `B` is the address at
which `mmap` places the region (a page-aligned external choice; the runs
below use 4096).  Failure paths return -1 and leave the state untouched;
success rounds the size up to a multiple of the pagesize, installs one
free block spanning the region, and points `list_head` at it. -/
def Mem_Init (B sizeOfRegion : Int) (st : AState) : Int × AState :=
  if st.allocated_once then (-1, st)
  else if sizeOfRegion ≤ 0 then (-1, st)
  else
    let padsize0 := Int.tmod sizeOfRegion pagesize
    let padsize := Int.tmod (pagesize - padsize0) pagesize
    let alloc_size := sizeOfRegion + padsize
    let m1 := store (fun _ => 0) B 0
    let m2 := store m1 (B + 4) (alloc_size - hdr)
    (0, { allocated_once := true, list_head := B, mem := m2
          base := B, regionSize := alloc_size })

/-- The scan loop of `Mem_Alloc`, lines 124-128:
`while (current != NULL && current->size_status < block_size
        && ((current->size_status & 0x1) != 0x1))
   { previous = current; current = current->next; }`.
Returns the value of `current` after the loop. -/
def allocScan (m : Memory) (block_size : Int) : Nat → Int → CResult Int
  | 0, _ => CResult.noFuel
  | fuel + 1, current =>
    if current = 0 then CResult.ok 0
    else if m (current + 4) < block_size ∧ lsb (m (current + 4)) ≠ 1 then
      allocScan m block_size fuel (m current)
    else CResult.ok current

/-- `Mem_Alloc(size)`, lines 104-160 of mem.c, including the rounding at
lines 113-116 (`size += sizeof(block_header) - size % sizeof(block_header)`
when `size % 4 != 0`), the scan, and the unconditional split at
`(char*)current + size` with the store order of lines 138-154.
Arithmetic of the rounding: in `size % 4` both operands are `int`, so the
C `%` truncates toward zero (`Int.tmod`); in
`size % sizeof(block_header)` the `int` is converted to the unsigned
`size_t`, and for a 32-bit `int` the value `(size mod 2^32) mod 8` equals
the nonnegative `Int.emod size 8` because 2^32 is a multiple of 8 — so
for example `(-1) % sizeof(block_header)` is 7 and `alloc(-1)` wraps
`size` to 0. -/
def Mem_Alloc (fuel : Nat) (size0 : Int) (st : AState) : CResult (Int × AState) :=
  if st.list_head = 0 then CResult.ok (0, st)
  else
    let size := if Int.tmod size0 4 ≠ 0
                then size0 + (hdr - Int.emod size0 hdr) else size0
    let block_size := size + hdr
    match allocScan st.mem block_size fuel st.list_head with
    | CResult.noFuel => CResult.noFuel
    | CResult.nullDeref => CResult.nullDeref
    | CResult.ok current =>
      if current = 0 then CResult.ok (0, st)
      else
        let split := current + size
        let m1 := store st.mem split (st.mem current)
        let m2 := store m1 current split
        let m3 := store m2 (split + 4) (m2 (current + 4) - block_size)
        let m4 := store m3 (current + 4) (setLsb size)
        CResult.ok (current + hdr, { st with mem := m4 })

/-- The mutation performed by `Mem_Free` once the scan has found `current`
busy with `current + 1 == ptr`: the neighbour case analysis of lines
202-332, with every store in source order (each read sees the stores
already performed, which matters because headers may alias). -/
def freeFound (m : Memory) (previous current next : Int) : Memory :=
  if previous = 0 ∧ next = 0 then
    store m (current + 4) (clearLsb (m (current + 4)))
  else if previous = 0 then
    if lsb (m (next + 4)) ≠ 1 then
      let m1 := store m (current + 4) (m (current + 4) + hdr + m (next + 4))
      let m2 := store m1 (current + 4) (clearLsb (m1 (current + 4)))
      store m2 current (m2 next)
    else
      store m (current + 4) (clearLsb (m (current + 4)))
  else if next = 0 then
    if lsb (m (previous + 4)) ≠ 1 then
      let m1 := store m (previous + 4) (m (previous + 4) + hdr + m (current + 4))
      let m2 := store m1 (previous + 4) (clearLsb (m1 (previous + 4)))
      store m2 previous 0
    else
      store m (current + 4) (clearLsb (m (current + 4)))
  else
    if lsb (m (previous + 4)) = 1 ∧ lsb (m (next + 4)) = 1 then
      store m (current + 4) (clearLsb (m (current + 4)))
    else if lsb (m (previous + 4)) ≠ 1 ∧ lsb (m (next + 4)) ≠ 1 then
      let m1 := store m (previous + 4)
        (m (previous + 4) + hdr + m (current + 4) + hdr + m (next + 4))
      let m2 := store m1 (previous + 4) (clearLsb (m1 (previous + 4)))
      store m2 previous (m2 next)
    else if lsb (m (previous + 4)) = 1 then
      let m1 := store m (current + 4) (m (current + 4) + hdr + m (next + 4))
      let m2 := store m1 (current + 4) (clearLsb (m1 (current + 4)))
      store m2 current (m2 next)
    else
      let m1 := store m (previous + 4) (m (previous + 4) + hdr + m (current + 4))
      let m2 := store m1 (previous + 4) (clearLsb (m1 (previous + 4)))
      store m2 previous (m2 current)

/-- The scan loop of `Mem_Free`, lines 194-339.  On a match (busy block
whose payload is `ptr`) every case returns 0 after `freeFound`; otherwise
the loop advances with `previous = current; current = current->next;
next = current->next;` — the last read dereferences `current` even when it
has just become NULL (line 337), which is the explicit `nullDeref` case.
`CResult.ok none` is the normal loop exit of line 341 (`return -1`). -/
def freeScan (m : Memory) (ptr : Int) : Nat → Int → Int → Int → CResult (Option Memory)
  | 0, _, _, _ => CResult.noFuel
  | fuel + 1, previous, current, next =>
    if current = 0 then CResult.ok none
    else if lsb (m (current + 4)) = 1 ∧ current + hdr = ptr then
      CResult.ok (some (freeFound m previous current next))
    else
      let previous2 := current
      let current2 := m current
      if current2 = 0 then CResult.nullDeref
      else freeScan m ptr fuel previous2 current2 (m current2)

/-- `Mem_Free(ptr)`, lines 171-342 of mem.c.  The validation at line 178
reads `((block_header*)ptr)->size_status`, i.e. the word at `ptr + 4`, and
rejects when its low bit is 0; then `current = list_head` and
`next = current->next` (a NULL dereference when the list is empty), then
the scan. -/
def Mem_Free (fuel : Nat) (ptr : Int) (st : AState) : CResult (Int × AState) :=
  if ptr = 0 then CResult.ok (-1, st)
  else if lsb (st.mem (ptr + 4)) ≠ 1 then CResult.ok (-1, st)
  else if st.list_head = 0 then CResult.nullDeref
  else
    let next0 := if st.mem st.list_head ≠ 0 then st.mem st.list_head else 0
    match freeScan st.mem ptr fuel 0 st.list_head next0 with
    | CResult.ok none => CResult.ok (-1, st)
    | CResult.ok (some m2) => CResult.ok (0, { st with mem := m2 })
    | CResult.nullDeref => CResult.nullDeref
    | CResult.noFuel => CResult.noFuel

/-- The traversal of `Mem_Dump` (lines 375-398): the list of
`(header address, raw size_status)` pairs in scan order. -/
def scanBlocks (m : Memory) : Nat → Int → List (Int × Int)
  | 0, _ => []
  | fuel + 1, current =>
    if current = 0 then []
    else (current, m (current + 4)) :: scanBlocks m fuel (m current)

/-- One row of `Mem_Dump` output: header address `t_Begin`, busy flag,
payload address `Begin`, payload end `End`, payload `Size`, span `t_Size`
(lines 377-394). -/
def dumpRow (m : Memory) (current : Int) : Int × Bool × Int × Int × Int × Int :=
  let raw := m (current + 4)
  let busy := lsb raw = 1
  let size := if lsb raw = 1 then raw - 1 else raw
  (current, decide busy, current + hdr, current + hdr + size, size, size + hdr)

/-- `Mem_Dump()`, lines 353-408: a read-only traversal producing the rows;
it mutates nothing, so the state it leaves behind is its argument. -/
def Mem_Dump (fuel : Nat) (st : AState) :
    List (Int × Bool × Int × Int × Int × Int) × AState :=
  ((scanBlocks st.mem fuel st.list_head).map (fun p => dumpRow st.mem p.1), st)

/-- A public mutating call. -/
inductive Op where
  | alloc : Int → Op
  | free : Int → Op

/-- Run one call. -/
def step (fuel : Nat) (op : Op) (st : AState) : CResult (Int × AState) :=
  match op with
  | Op.alloc n => Mem_Alloc fuel n st
  | Op.free p => Mem_Free fuel p st

/-- Run a sequence of calls, stopping at a crash or fuel exhaustion. -/
def runOps (fuel : Nat) : List Op → AState → CResult AState
  | [], st => CResult.ok st
  | op :: ops, st =>
    match step fuel op st with
    | CResult.ok (_, st2) => runOps fuel ops st2
    | CResult.nullDeref => CResult.nullDeref
    | CResult.noFuel => CResult.noFuel

/-- Return value of one call, `none` on crash or fuel exhaustion. -/
def retOf (fuel : Nat) (op : Op) (st : AState) : Option Int :=
  match step fuel op st with
  | CResult.ok (r, _) => some r
  | _ => none

/-- State after one call (the argument state if the call crashed or ran
out of fuel, so that the function is total). -/
def stepState (fuel : Nat) (op : Op) (st : AState) : AState :=
  match step fuel op st with
  | CResult.ok (_, st2) => st2
  | _ => st

/-- End address of the span of a block whose header is at `a` with raw
`size_status` `ss`: header plus decoded payload magnitude. -/
def blockSpanEnd (a ss : Int) : Int :=
  a + hdr + (if ss % 2 = 1 then ss - 1 else ss)

/-- Does a scan result contain two consecutive blocks both marked free
(low bit of `size_status` equal to 0)? -/
def hasAdjFreePair : List (Int × Int) → Bool
  | [] => false
  | [_] => false
  | (_, s1) :: (a2, s2) :: rest =>
    (s1 % 2 == 0 && s2 % 2 == 0) || hasAdjFreePair ((a2, s2) :: rest)

/-- Are all scanned headers inside the region `[4096, 4096 + 4096)`? -/
def allInRegion (l : List (Int × Int)) : Bool :=
  l.all fun p => decide (4096 ≤ p.1 ∧ p.1 + hdr ≤ 4096 + 4096)

/-- Freshly initialised allocator: `Mem_Init(4096)` with the region mapped
at address 4096. -/
def st0 : AState := (Mem_Init 4096 4096 stZero).2

/-- State after `Mem_Alloc(8)` on the fresh allocator. -/
def stA8 : AState := stepState 60 (Op.alloc 8) st0

/-- State after a second `Mem_Alloc(8)`. -/
def stA8A8 : AState := stepState 60 (Op.alloc 8) stA8

/-- State after `Mem_Alloc(8)` then `Mem_Alloc(16)`. -/
def stA8A16 : AState := stepState 60 (Op.alloc 16) stA8

/-- State after `Mem_Alloc(12); Mem_Alloc(8); Mem_Alloc(16)` on the fresh
allocator. -/
def stC4 : AState :=
  stepState 200 (Op.alloc 16)
    (stepState 200 (Op.alloc 8) (stepState 200 (Op.alloc 12) st0))

/-- State after the further completed `Mem_Free(4112)`. -/
def stC4F : AState := stepState 200 (Op.free 4112) stC4

end MemC

namespace MemC

/-- Helper: a successful `Mem_Alloc` never changes `list_head` or the ghost
region fields; every branch returns the argument state or only replaces
`mem`. -/
theorem allocPreservesHead (fuel : Nat) (n : Int) (st : AState) (r : Int)
    (st2 : AState) (h : Mem_Alloc fuel n st = CResult.ok (r, st2)) :
    st2.list_head = st.list_head ∧ st2.base = st.base := by
  simp only [Mem_Alloc] at h
  split at h
  · cases h; exact ⟨rfl, rfl⟩
  · split at h
    · cases h
    · cases h
    · split at h
      · cases h; exact ⟨rfl, rfl⟩
      · cases h; exact ⟨rfl, rfl⟩

/-- Helper: a returning `Mem_Free` never changes `list_head` or the ghost
region fields. -/
theorem freePreservesHead (fuel : Nat) (p : Int) (st : AState) (r : Int)
    (st2 : AState) (h : Mem_Free fuel p st = CResult.ok (r, st2)) :
    st2.list_head = st.list_head ∧ st2.base = st.base := by
  simp only [Mem_Free] at h
  split at h
  · cases h; exact ⟨rfl, rfl⟩
  · split at h
    · cases h; exact ⟨rfl, rfl⟩
    · split at h
      · cases h
      · split at h
        · cases h; exact ⟨rfl, rfl⟩
        · cases h; exact ⟨rfl, rfl⟩
        · cases h
        · cases h

/-- Helper: one public call preserves `list_head` and the region fields. -/
theorem stepPreservesHead (fuel : Nat) (op : Op) (st : AState) (r : Int)
    (st2 : AState) (h : step fuel op st = CResult.ok (r, st2)) :
    st2.list_head = st.list_head ∧ st2.base = st.base := by
  cases op with
  | alloc n => exact allocPreservesHead fuel n st r st2 h
  | free p => exact freePreservesHead fuel p st r st2 h

/-- Helper: any completed run of public calls preserves `list_head` and the
region fields. -/
theorem runPreservesHead (fuel : Nat) (ops : List Op) (st st2 : AState)
    (h : runOps fuel ops st = CResult.ok st2) :
    st2.list_head = st.list_head ∧ st2.base = st.base := by
  induction ops generalizing st with
  | nil =>
    simp only [runOps] at h
    injection h with h2
    subst h2
    exact ⟨rfl, rfl⟩
  | cons op ops ih =>
    simp only [runOps] at h
    cases hs : step fuel op st with
    | ok p =>
      obtain ⟨r1, stm⟩ := p
      rw [hs] at h
      have h2 := ih stm h
      have h3 := stepPreservesHead fuel op st r1 stm hs
      exact ⟨h2.1.trans h3.1, h2.2.trans h3.2⟩
    | nullDeref => rw [hs] at h; cases h
    | noFuel => rw [hs] at h; cases h

end MemC

namespace MemC

/-- Claim C1 fails on the code: `Mem_Alloc`'s scan at line 124 advances
only while the current block is both too small and free, so it stops at
the first busy block and allocates it.  Concretely: after `Mem_Init(4096)`
(region at 4096) and `Mem_Alloc(8)` (which returns payload 4104), the list
is `[(4096, busy, 8 bytes), (4104, free, 4072 bytes)]` and the free block
at 4104 can hold the request (span `8 + 4072 ≥ 16` needed); the claim says
a second `Mem_Alloc(8)` must skip the busy head and return that free
block's payload `4112`, but the code stops at the busy head at 4096 and
hands out its payload 4104 a second time, splitting the busy block into a
self-overlapping list. -/
theorem C1_second_alloc_returns_busy_block :
    retOf 60 (Op.alloc 8) st0 = some 4104 ∧
    scanBlocks stA8.mem 10 stA8.list_head = [(4096, 9), (4104, 4072)] ∧
    lsb (stA8.mem (4096 + 4)) = 1 ∧
    lsb (stA8.mem (4104 + 4)) = 0 ∧
    8 + hdr ≤ hdr + stA8.mem (4104 + 4) ∧
    retOf 60 (Op.alloc 8) stA8 = some 4104 ∧
    scanBlocks stA8A8.mem 4 stA8A8.list_head =
      [(4096, 9), (4104, -7), (4104, -7), (4104, -7)] := by
  decide

/-- Claim C2 fails on the code: `Mem_Free` validates by reading the word at
`ptr + 4` (the header-struct laid at `ptr`, line 178), not the header
preceding `ptr`, and an unidentifiable pointer is not rejected with `-1`
and no mutation.  Concretely, after `Mem_Init(4096); Mem_Alloc(8)` the
payload addresses are 4104 and 4112, yet `Mem_Free(4096)` (the region
base — not a payload) passes the validation (the word at 4100 is the odd
busy `size_status` 9) and the scan then runs off the end of the list and
dereferences a NULL cursor instead of failing cleanly. -/
theorem C2_invalid_pointer_crashes :
    scanBlocks stA8.mem 10 stA8.list_head = [(4096, 9), (4104, 4072)] ∧
    Mem_Free 200 4096 stA8 = CResult.nullDeref :=
  ⟨by decide, rfl⟩

/-- Claim C3 fails on the code.  On the fresh region (one free block of
span 4096 at 4096): (a) for `Mem_Alloc(4084)` (needed `4092 ≤ 4096`,
remainder `4 < hdr`) the claim requires the whole block to be allocated
with no split, but the scan condition `size_status < block_size` compares
the payload 4088 against 4092 and skips the fitting block, so the call
returns NULL (0); (b) for `Mem_Alloc(4080)` (remainder exactly one header)
the split block is written at `current + size` = 8176 instead of
`current + hdr + size` = 8184, so the "remainder" free block does not
follow the allocated block — its header overlaps the allocated payload. -/
theorem C3_split_policy_violated :
    scanBlocks st0.mem 5 st0.list_head = [(4096, 4088)] ∧
    retOf 60 (Op.alloc 4084) st0 = some 0 ∧
    retOf 60 (Op.alloc 4080) st0 = some 4104 ∧
    scanBlocks (stepState 60 (Op.alloc 4080) st0).mem 4 4096 =
      [(4096, 4081), (8176, 0)] ∧
    (8176 : Int) ≠ 4096 + hdr + 4080 := by
  decide

/-- Claim C4 fails on the code: after `Mem_Init(4096); Mem_Alloc(12);
Mem_Alloc(8); Mem_Alloc(16)` (each returning 4104 — the scan keeps
stopping at the busy head and re-splitting it), the deallocation
`Mem_Free(4112)` completes with return value 0, and scanning the block
list afterwards finds the blocks at 4104 (`size_status` 4108, even) and
4108 (`size_status` 4104, even) consecutive and both free, every header
visited lying inside the region — two adjacent free blocks survive a
completed deallocation. -/
theorem C4_adjacent_free_blocks_after_free :
    retOf 200 (Op.free 4112) stC4 = some 0 ∧
    scanBlocks stC4F.mem 6 stC4F.list_head =
      [(4096, 17), (4112, -15), (4104, 4108), (4108, 4104),
       (4108, 4104), (4108, 4104)] ∧
    hasAdjFreePair (scanBlocks stC4F.mem 6 stC4F.list_head) = true ∧
    allInRegion (scanBlocks stC4F.mem 6 stC4F.list_head) = true := by
  decide

/-- Claim C5 fails on the code: in the reachable state after
`Mem_Init(4096); Mem_Alloc(8)` the two blocks do not tile the region.
The busy block at 4096 (decoded payload 8) spans `[4096, 4112)`, but the
next block's header is at 4104, 8 bytes before that span ends (the split
was written at `current + size` instead of `current + hdr + size`), and
the last block ends at `4104 + 8 + 4072 = 8184`, not at the region end
8192. -/
theorem C5_tiling_violated :
    stA8.base = 4096 ∧ stA8.regionSize = 4096 ∧
    scanBlocks stA8.mem 10 stA8.list_head = [(4096, 9), (4104, 4072)] ∧
    blockSpanEnd 4096 9 ≠ 4104 ∧
    blockSpanEnd 4104 4072 ≠ stA8.base + stA8.regionSize := by
  decide

/-- Claim C6 fails on the code: on the freshly initialised allocator,
`Mem_Alloc(8)` succeeds returning 4104, but `Mem_Free(4104)` does not
restore anything — it returns `-1` with the state unchanged, because the
validation at line 178 reads the word at `4104 + 4`, which is the (even)
`size_status` 4072 of the split free block the allocation itself wrote
inside the payload.  The allocator remains two blocks, not one. -/
theorem C6_free_after_alloc_fails :
    retOf 60 (Op.alloc 8) st0 = some 4104 ∧
    Mem_Free 60 4104 stA8 = CResult.ok (-1, stA8) ∧
    scanBlocks stA8.mem 10 stA8.list_head = [(4096, 9), (4104, 4072)] :=
  ⟨by decide, rfl, by decide⟩

/-- Claim C7 fails on the code for the `Mem_Alloc` half: `Mem_Init(0)` and
`Mem_Init(-5)` are indeed rejected with `-1` and no mutation, but
`Mem_Alloc` never checks its argument: `Mem_Alloc(0)` on the fresh
allocator succeeds (returns 4104) and corrupts the head block into a busy
self-loop, and `Mem_Alloc(-1)` succeeds as well — the unsigned rounding
at line 115 (`(-1) % sizeof(block_header)` is 7 after the `size_t`
conversion) wraps `size` to 0, so the call behaves exactly like
`Mem_Alloc(0)`: it returns 4104 and leaves the same busy self-loop
instead of failing with no mutation. -/
theorem C7_nonpositive_alloc_not_rejected :
    Mem_Init 4096 0 stZero = (-1, stZero) ∧
    Mem_Init 4096 (-5) stZero = (-1, stZero) ∧
    retOf 60 (Op.alloc 0) st0 = some 4104 ∧
    scanBlocks (stepState 60 (Op.alloc 0) st0).mem 3 4096 =
      [(4096, 1), (4096, 1), (4096, 1)] ∧
    retOf 60 (Op.alloc (-1)) st0 = some 4104 ∧
    scanBlocks (stepState 60 (Op.alloc (-1)) st0).mem 3 4096 =
      [(4096, 1), (4096, 1), (4096, 1)] :=
  ⟨rfl, rfl, by decide, by decide, by decide, by decide⟩

/-- Claim C8 fails on the code: lines 335-337 run `previous = current;
current = current->next; next = current->next;`, the last read
dereferencing the cursor after it has already advanced past the last
block.  Concretely, after `Mem_Init(4096); Mem_Alloc(8); Mem_Alloc(16)`
the call `Mem_Free(4112)` passes validation, scans the whole list without
a match, and executes `next = current->next` with `current == NULL`. -/
theorem C8_free_scan_dereferences_null :
    retOf 60 (Op.alloc 16) stA8 = some 4104 ∧
    Mem_Free 200 4112 stA8A16 = CResult.nullDeref :=
  ⟨by decide, rfl⟩

/-- Claim C9 as stated is false at one detail: the word `Mem_Free` reads
is not the one stored at the payload address itself but the `size_status`
field of the header-struct laid at the payload address, i.e. the word at
`ptr + 4`.  Counterexample: after `Mem_Init(4096); Mem_Alloc(8);
Mem_Alloc(8)` the word stored at the payload address 4104 is 4104 — even —
so the claim requires `Mem_Free(4104)` to fail immediately, yet the call
succeeds (returns 0), because the word it actually examines, at 4108, is
the odd value -7. -/
theorem C9_word_at_ptr_even_yet_free_succeeds :
    stA8A8.mem 4104 % 2 = 0 ∧
    retOf 200 (Op.free 4104) stA8A8 = some 0 := by
  decide

/-- Claim C9 amended: for every non-null pointer, `Mem_Free`'s acceptance
decision begins by reading the `size_status` field of the header-struct
laid at the caller-supplied payload address — the machine word at
`ptr + 4`, not the preceding header; whenever that word is even, the call
returns `-1` immediately with no mutation, even when `ptr` is the valid
payload address of a busy block whose user data happens to be even. -/
theorem C9_even_status_word_rejected (st : AState) (ptr : Int) (fuel : Nat)
    (h1 : ptr ≠ 0) (h2 : st.mem (ptr + 4) % 2 = 0) :
    Mem_Free fuel ptr st = CResult.ok (-1, st) := by
  have h3 : lsb (st.mem (ptr + 4)) ≠ 1 := by simp [lsb, h2]
  unfold Mem_Free
  rw [if_neg h1, if_pos h3]

/-- Witness for the amended C9: on the fresh allocator, 4112 is non-null,
the word at 4116 is 0 (even), and `Mem_Free(4112)` returns `-1` leaving
the state untouched. -/
theorem C9_even_status_word_rejected_witness :
    (4112 : Int) ≠ 0 ∧ st0.mem (4112 + 4) % 2 = 0 ∧
    Mem_Free 60 4112 st0 = CResult.ok (-1, st0) :=
  ⟨by decide, by decide,
   C9_even_status_word_rejected st0 4112 60 (by decide) (by decide)⟩

/-- Claim C10 holds: after a successful `Mem_Init` (region mapped at `B`,
`allocated_once` still clear, positive size) the list head is `B`, the
lowest address of the region, and no completed sequence of `Mem_Alloc` /
`Mem_Free` calls ever reassigns it — nor does `Mem_Dump`, which returns
its state unchanged: the first block's header address is invariant for the
instance's lifetime. -/
theorem C10_list_head_invariant (B sz : Int) (stp : AState) (fuel : Nat)
    (ops : List Op) (h0 : stp.allocated_once = false) (hsz : 0 < sz) :
    ((Mem_Init B sz stp).2).list_head = B ∧
    ((Mem_Init B sz stp).2).base = B ∧
    ∀ st2, runOps fuel ops (Mem_Init B sz stp).2 = CResult.ok st2 →
      st2.list_head = B ∧ st2.base = B ∧
      ((Mem_Dump fuel st2).2).list_head = B := by
  have hne : ¬ sz ≤ 0 := not_le.mpr hsz
  have hinit : ((Mem_Init B sz stp).2).list_head = B ∧
      ((Mem_Init B sz stp).2).base = B := by
    simp [Mem_Init, h0, hne]
  refine ⟨hinit.1, hinit.2, ?_⟩
  intro st2 h
  have hp := runPreservesHead fuel ops _ st2 h
  exact ⟨hp.1.trans hinit.1, hp.2.trans hinit.2, hp.1.trans hinit.1⟩

/-- Witness for C10: the concrete run `Mem_Init(4096); Mem_Alloc(8)`
keeps the list head at 4096. -/
theorem C10_list_head_invariant_witness :
    stZero.allocated_once = false ∧ (0 : Int) < 4096 ∧
    stA8.list_head = 4096 ∧ stA8.base = 4096 :=
  ⟨rfl, by decide,
   ((C10_list_head_invariant 4096 4096 stZero 60 [Op.alloc 8] rfl
      (by decide)).2.2 stA8 rfl).1,
   ((C10_list_head_invariant 4096 4096 stZero 60 [Op.alloc 8] rfl
      (by decide)).2.2 stA8 rfl).2.1⟩

end MemC
